import Mathlib

/-! Verification development for the git_sync repository: a shallow embedding of
the core synchronization engine (work-directory resolution, bundle
verification-report and head-listing parsers, the mirror sync state machine,
the pull orchestrator, bundle application, and the idempotency hash), together
with theorems settling the specification claims. External effects (the go-git
library, the `git` executable, the filesystem and HTTP transport) are modelled
as explicit oracle inputs recording the outcome of each external call; all pure
computation is translated directly from the source. -/

set_option autoImplicit false

namespace GitSync

/-- Go byte strings: a Go `string` is an arbitrary byte sequence, modelled as a
list of byte values (each < 256). Used where the code treats strings as raw
bytes (base64 work-dir encoding); textual parsers use Lean `String`. -/
abbrev GoBytes := List Nat

/-- `RemoteRepo` from the source (URL, branch and access token of one sync
endpoint; the struct itself is defined in a file not present under src/, its
fields are taken from every use site: `NewGIT`, `extractArgs`). -/
structure RemoteRepo where
  url : String
  branch : String
  token : String
deriving DecidableEq, Repr

/-- `CommandError` (part_004): detail record for a failed external `git`
process. The wrapped Go `error` value is modelled by its text. -/
structure CommandError where
  errText : String
  message : String
  exitCode : Int
  stdErr : String
deriving DecidableEq, Repr

/-! ## Workdir resolver (`getWorkDir`, part_006 line 458 / git.go line 336)

`getWorkDir` joins the temp root with `base64.URLEncoding` of the byte
concatenation `remoteURL + branch`. Go's `base64.URLEncoding` is the RFC 4648
URL-safe alphabet with `=` padding; it is embedded here byte-for-byte. -/

/-- Index-to-byte map of Go's `base64.URLEncoding` alphabet
`A-Z a-z 0-9 - _` (byte values; `-` = 45, `_` = 95). -/
def base64urlIdx (n : Nat) : Nat :=
  if n < 26 then 65 + n
  else if n < 52 then 97 + (n - 26)
  else if n < 62 then 48 + (n - 52)
  else if n = 62 then 45
  else 95

/-- `base64.URLEncoding.EncodeToString` on a byte sequence: standard base64
over the URL-safe alphabet, `=` (byte 61) padding. -/
def base64urlEncode : GoBytes → GoBytes
  | [] => []
  | [a] => [base64urlIdx (a / 4), base64urlIdx (a % 4 * 16), 61, 61]
  | [a, b] => [base64urlIdx (a / 4), base64urlIdx (a % 4 * 16 + b / 16),
               base64urlIdx (b % 16 * 4), 61]
  | a :: b :: c :: rest =>
      base64urlIdx (a / 4) :: base64urlIdx (a % 4 * 16 + b / 16) ::
      base64urlIdx (b % 16 * 4 + c / 64) :: base64urlIdx (c % 64) ::
      base64urlEncode rest

/-- Inverse of `base64urlIdx` on the alphabet (proof device for injectivity;
not part of the source). -/
def base64urlInv (c : Nat) : Nat :=
  if 65 ≤ c ∧ c ≤ 90 then c - 65
  else if 97 ≤ c ∧ c ≤ 122 then c - 97 + 26
  else if 48 ≤ c ∧ c ≤ 57 then c - 48 + 52
  else if c = 45 then 62
  else 63

/-- Base64url decoder (proof device used to establish that `base64urlEncode`
is injective on byte sequences; not part of the source). -/
def base64urlDecode : GoBytes → GoBytes
  | c1 :: c2 :: c3 :: c4 :: rest =>
      if c3 = 61 then [base64urlInv c1 * 4 + base64urlInv c2 / 16]
      else if c4 = 61 then
        [base64urlInv c1 * 4 + base64urlInv c2 / 16,
         base64urlInv c2 % 16 * 16 + base64urlInv c3 / 4]
      else
        (base64urlInv c1 * 4 + base64urlInv c2 / 16) ::
        (base64urlInv c2 % 16 * 16 + base64urlInv c3 / 4) ::
        (base64urlInv c3 % 4 * 64 + base64urlInv c4) ::
        base64urlDecode rest
  | _ => []

/-- `filepath.Join(dir, name)` for a clean directory path and a separator-free
name: concatenation with the `/` byte (47). -/
def goFilepathJoin (dir name : GoBytes) : GoBytes := dir ++ 47 :: name

/-- `getWorkDir` (part_006 line 458): temp root joined with the base64url
encoding of the byte concatenation of remote URL and branch. -/
def getWorkDir (tempDir remoteURL branch : GoBytes) : GoBytes :=
  goFilepathJoin tempDir (base64urlEncode (remoteURL ++ branch))

/-- UTF-8 bytes of a Lean string, as Go's `[]byte(s)` conversion. -/
def strBytes (s : String) : GoBytes := s.toUTF8.data.toList.map (·.toNat)

/-! ## Go string primitives

The Go standard-library string operations the source uses
(`strings.HasPrefix/HasSuffix/TrimPrefix/Split/Contains`, `bufio.ScanLines`)
are embedded as structurally recursive functions over the character list of a
`String`, so that every definition evaluates inside the kernel. -/

/-- `strings.HasPrefix`. -/
def goHasPrefix (s pre : String) : Bool := pre.toList.isPrefixOf s.toList

/-- `strings.HasSuffix`. -/
def goHasSuffix (s suf : String) : Bool := suf.toList.isSuffixOf s.toList

/-- `strings.TrimPrefix(s, pre)` under the guarantee that `pre` is a prefix:
drops `pre.length` characters. -/
def goDropChars (s : String) (n : Nat) : String := String.mk (s.toList.drop n)

/-- Sublist-occurrence test on character lists (Go's `strings.Contains`
kernel): `needle` occurs contiguously in `hay`. -/
def listIsInfix (needle hay : List Char) : Bool :=
  match hay with
  | [] => needle.isEmpty
  | _ :: tail => needle.isPrefixOf hay || listIsInfix needle tail

/-- `strings.Contains`. -/
def goStringsContains (s substr : String) : Bool := listIsInfix substr.toList s.toList

/-- Split a character list at every occurrence of `sep` (kernel of Go's
`strings.Split` with a single-character separator; `Split("", sep)` is one
empty field, as in Go). -/
def splitOnChar (sep : Char) : List Char → List (List Char)
  | [] => [[]]
  | c :: rest =>
    let r := splitOnChar sep rest
    if c = sep then [] :: r
    else
      match r with
      | [] => [[c]]
      | g :: gs => (c :: g) :: gs

/-- `strings.Split(s, sep)` for a one-character separator. -/
def goStringsSplit (s : String) (sep : Char) : List String :=
  (splitOnChar sep s.toList).map (fun cs => String.mk cs)

/-- Drop one trailing carriage return, as Go's `bufio.ScanLines` does per line. -/
def goDropCR (s : String) : String :=
  if goHasSuffix s "\r" then String.mk (s.toList.dropLast) else s

/-- `bufio.Scanner` with `ScanLines`: the sequence of lines of `s`; a final
newline does not produce an empty trailing line, and each line loses one
trailing `\r`. -/
def goScanLines (s : String) : List String :=
  if s = "" then []
  else
    let ls := (goStringsSplit s '\n').map goDropCR
    if goHasSuffix s "\n" then ls.dropLast else ls

/-! ## BundleInfo and its validation (part_006 lines 338-360) -/

/-- `BundleInfo` (part_006): structured result of parsing a
`git bundle verify` report. Field order as in the source. -/
structure BundleInfo where
  isComplete : Bool
  containsRef : String
  requiresRef : String
  hashAlgorithm : String
  isOkay : Bool
deriving DecidableEq, Repr

/-- `BundleInfo.Validate` (part_006 line 346). Returns `some errorMessage` for
a rejected record and `none` for an accepted one, mirroring the Go `error`
return. The third check is embedded exactly as written in the source:
`!b.IsComplete && b.RequiresRef != ""`. -/
def BundleInfo.Validate (b : BundleInfo) : Option String :=
  if !b.isOkay then some "bundle is not okay"
  else if b.containsRef = "" then some "bundle does not contain ref"
  else if !b.isComplete && b.requiresRef ≠ "" then
    some "bundle does not specify required ref, but is partial"
  else if b.hashAlgorithm = "" then some "bundle does not specify hash algorithm"
  else none

/-- Usability rule as the specification words it (spec §3): well-formed,
non-empty contained ref, and either a complete history or a declared
prerequisite ref. Stated from the spec for comparison with
`BundleInfo.Validate`, which is translated from the source. -/
def bundleUsableSpec (b : BundleInfo) : Bool :=
  b.isOkay && b.containsRef ≠ "" && (b.isComplete || b.requiresRef ≠ "")

/-! ## Bundle verify-report parser (part_006 lines 362-396) -/

/-- Line marking a complete-history bundle in `git bundle verify` output. -/
def completeHistoryLine : String := "The bundle records a complete history."

/-- Marker preceding the hash-algorithm value on its line. -/
def hashAlgoMarker : String := "The bundle uses this hash algorithm: "

/-- Marker of the block whose next line holds the contained ref. -/
def containsMarker : String := "The bundle contains this ref:"

/-- Marker of the block whose next line holds the required ref. -/
def requiresMarker : String := "The bundle requires this ref:"

/-- Scanner loop of `ParseBundleVerifyOutput` (part_006 line 362) over the
scanned lines. The two standalone `if`s (complete-history equality, hash
algorithm) run first on each line, then the `if/else if` chain; the
contains/requires branches call `scanner.Scan()` once more and read the ref
from that next line (an exhausted scanner yields `""`), and the chain's final
branch flags the bundle as okay on a line ending in `" is okay"`. -/
def parseVerifyLines : List String → BundleInfo → BundleInfo
  | [], b => b
  | line :: rest, b =>
    let b1 := if line = completeHistoryLine then { b with isComplete := true } else b
    let b2 := if goHasPrefix line hashAlgoMarker then
                { b1 with hashAlgorithm := goDropChars line hashAlgoMarker.length }
              else b1
    if goHasPrefix line containsMarker then
      match rest with
      | [] => { b2 with containsRef := "" }
      | refLine :: rest2 => parseVerifyLines rest2 { b2 with containsRef := refLine }
    else if goHasPrefix line requiresMarker then
      match rest with
      | [] => { b2 with requiresRef := "" }
      | refLine :: rest2 => parseVerifyLines rest2 { b2 with requiresRef := refLine }
    else if goHasPrefix line completeHistoryLine then
      parseVerifyLines rest { b2 with isComplete := true }
    else if goHasSuffix line " is okay" then
      parseVerifyLines rest { b2 with isOkay := true }
    else
      parseVerifyLines rest b2

/-- `ParseBundleVerifyOutput` (part_006 line 362): scan the report line by
line starting from the zero `BundleInfo`. -/
def ParseBundleVerifyOutput (output : String) : BundleInfo :=
  parseVerifyLines (goScanLines output) ⟨false, "", "", "", false⟩

/-- `GetBundleInfo` (part_006 line 398) after a successful
`git bundle verify` run: parse the report, then validate; a validation
failure is returned as an error alongside the parsed record. -/
def GetBundleInfo (stdout : String) : Except String BundleInfo :=
  let info := ParseBundleVerifyOutput stdout
  match info.Validate with
  | some ve => .error ve
  | none => .ok info

/-! ## Bundle head-listing parser (part_006 lines 420-438) -/

/-- `Head` (part_006): one `git bundle list-heads` entry. -/
structure Head where
  commitID : String
  ref : String
deriving DecidableEq, Repr

/-- Per-line loop of `ParseBundleListHeadsOutput` (part_006 line 425): each
line must split on the space character into exactly two fields; the first
malformed line aborts with a parse error. -/
def parseHeadsLines : List String → Except String (List Head)
  | [] => .ok []
  | line :: rest =>
    match goStringsSplit line ' ' with
    | [c, r] =>
      match parseHeadsLines rest with
      | .error e => .error e
      | .ok hs => .ok (⟨c, r⟩ :: hs)
    | _ => .error ("invalid line in bundle list-heads output: " ++ line)

/-- `ParseBundleListHeadsOutput` (part_006 line 425). -/
def ParseBundleListHeadsOutput (output : String) : Except String (List Head) :=
  parseHeadsLines (goScanLines output)

/-! ## Constructor and request argument extraction (part_006 lines 38-56,
pull.go lines 186-213) -/

/-- `GIT` (part_006): the mirror manager value; carries the resolved work
directory, the temp root and the repo descriptor. -/
structure GIT where
  workDir : GoBytes
  tempDir : String
  remoteRepo : RemoteRepo

/-- `NewGIT` (part_006 line 38): rejects an empty temp dir, URL, branch or
token, otherwise resolves the work directory. -/
def NewGIT (tempDir : String) (remoteRepo : RemoteRepo) : Except String GIT :=
  if tempDir = "" then .error "tempDir not set"
  else if remoteRepo.url = "" then .error "remoteRepo.URL not set"
  else if remoteRepo.branch = "" then .error "branch not set"
  else if remoteRepo.token = "" then .error "remoteRepo.Token not set"
  else .ok ⟨getWorkDir (strBytes tempDir) (strBytes remoteRepo.url) (strBytes remoteRepo.branch),
            tempDir, remoteRepo⟩

/-- `extractAuthToken` (pull.go line 202): the Authorization header value
(`""` models an absent header, as Go's `Header.Get`); requires the
`Bearer ` scheme and returns the trimmed token. -/
def extractAuthToken (authHeader : String) : Except String String :=
  if authHeader = "" then .error "no Authorization header"
  else if !(goHasPrefix authHeader "Bearer ") then .error "invalid Authorization header"
  else .ok (goDropChars authHeader "Bearer ".length)

/-- `extractArgs` (pull.go line 186): repository and branch from the query
string, token from the Authorization header. -/
def extractArgs (repository branch authHeader : String) : Except String RemoteRepo :=
  if repository = "" then .error "no 'repository' specified"
  else if branch = "" then .error "no 'branch' specified"
  else
    match extractAuthToken authHeader with
    | .error e => .error e
    | .ok token => .ok ⟨repository, branch, token⟩

/-! ## Go time and duration rendering

`createHash` and the empty-bundle NoContent body format a `time.Duration` and
a `time.Time` with `fmt`'s `%s`/`%v`, which call their `String()` methods.
Both methods are embedded below. `time.Duration` is an int64 nanosecond count.
`time.Time` is modelled by its wall-clock reading as nanoseconds since Go's
zero time (January 1, year 1, 00:00:00 UTC), so the zero `time.Time` is `0`;
the model covers non-negative instants in UTC without a monotonic reading,
which is the domain the handlers produce (RFC 3339 query parameters and the
zero value). -/

abbrev GoDuration := Int

abbrev GoTime := Int

/-- `fmtFrac` of Go's time package: render `prec` fractional digits of `v`
from the least significant end, omitting trailing zeros and the decimal point
when every digit is zero; also returns `v` shifted down by `prec` digits. -/
def fmtFracAux : Nat → Nat → List Char → Bool → List Char × Nat
  | 0, v, acc, pr => ((if pr then '.' :: acc else []), v)
  | p + 1, v, acc, pr =>
      let digit := v % 10
      let pr2 := pr || decide (digit ≠ 0)
      let acc2 := if pr2 then Char.ofNat (48 + digit) :: acc else acc
      fmtFracAux p (v / 10) acc2 pr2

/-- See `fmtFracAux`. -/
def fmtFracGo (prec v : Nat) : List Char × Nat := fmtFracAux prec v [] false

/-- `time.Duration.String()`: `"0s"` for zero; `ns`/`µs`/`ms` rendering with
fractions below one second; otherwise seconds with up to nine fractional
digits, then minutes and hours as needed. -/
def goDurationString (d : GoDuration) : String :=
  let u := d.natAbs
  let sign := if d < 0 then "-" else ""
  if u < 1000000000 then
    if u = 0 then "0s"
    else if u < 1000 then sign ++ toString u ++ "ns"
    else if u < 1000000 then
      let fv := fmtFracGo 3 u
      sign ++ toString fv.2 ++ String.mk fv.1 ++ "µs"
    else
      let fv := fmtFracGo 6 u
      sign ++ toString fv.2 ++ String.mk fv.1 ++ "ms"
  else
    let fv := fmtFracGo 9 u
    let v := fv.2
    let base := toString (v % 60) ++ String.mk fv.1 ++ "s"
    let m := v / 60
    if m = 0 then sign ++ base
    else
      let s2 := toString (m % 60) ++ "m" ++ base
      let h := m / 60
      if h = 0 then sign ++ s2 else sign ++ toString h ++ "h" ++ s2

/-- Left-pad a decimal rendering with zeros to width `w`. -/
def padZeros (w : Nat) (n : Nat) : String :=
  let s := toString n
  String.mk (List.replicate (w - s.length) '0') ++ s

/-- Gregorian leap-year rule. -/
def isLeapYear (y : Nat) : Bool := y % 4 = 0 && (y % 100 ≠ 0 || y % 400 = 0)

/-- Cumulative day counts before each month of a non-leap year. -/
def daysBeforeMonth : List Nat := [0, 31, 59, 90, 120, 151, 181, 212, 243, 273, 304, 334, 365]

/-- Go's `absDate`: civil (year, month, day) from a day count since
January 1, year 1. -/
def daysToDate (d : Nat) : Nat × Nat × Nat :=
  let n400 := d / 146097
  let d1 := d % 146097
  let n100 := min (d1 / 36524) 3
  let d2 := d1 - 36524 * n100
  let n4 := d2 / 1461
  let d3 := d2 % 1461
  let n1 := min (d3 / 365) 3
  let yday := d3 - 365 * n1
  let year := 400 * n400 + 100 * n100 + 4 * n4 + n1 + 1
  if isLeapYear year && yday = 59 then (year, 2, 29)
  else
    let day := if isLeapYear year && yday > 59 then yday - 1 else yday
    let m0 := day / 31
    let endD := daysBeforeMonth.getD (m0 + 1) 365
    let m1 := if day ≥ endD then m0 + 1 else m0
    let begin := if day ≥ endD then endD else daysBeforeMonth.getD m0 0
    (year, m1 + 1, day - begin + 1)

/-- Drop trailing `'0'` characters. -/
def trimTrailingZeros (s : List Char) : List Char :=
  (s.reverse.dropWhile (· = '0')).reverse

/-- `time.Time.String()` for a UTC wall-clock instant without monotonic
reading: layout `"2006-01-02 15:04:05.999999999 -0700 MST"`, rendering as
`... +0000 UTC` with the fractional part trimmed of trailing zeros. -/
def goTimeString (t : GoTime) : String :=
  let ns := t.natAbs
  let absSec := ns / 1000000000
  let frac := ns % 1000000000
  let days := absSec / 86400
  let secOfDay := absSec % 86400
  let ymd := daysToDate days
  let fracStr := if frac = 0 then "" else
    "." ++ String.mk (trimTrailingZeros (padZeros 9 frac).toList)
  padZeros 4 ymd.1 ++ "-" ++ padZeros 2 ymd.2.1 ++ "-" ++ padZeros 2 ymd.2.2 ++ " " ++
  padZeros 2 (secOfDay / 3600) ++ ":" ++ padZeros 2 (secOfDay % 3600 / 60) ++ ":" ++
  padZeros 2 (secOfDay % 60) ++ fracStr ++ " +0000 UTC"

/-! ## SHA-256 (crypto/sha256 as used by `createHash`, pull.go line 215)

A byte-level FIPS 180-4 SHA-256, fully executable, with words as `Nat`
reduced modulo `2 ^ 32`. -/

/-- Truncate to a 32-bit word. -/
def w32 (x : Nat) : Nat := x % 4294967296

/-- 32-bit rotate right. -/
def rotr32 (n x : Nat) : Nat := w32 ((x >>> n) ||| (x <<< (32 - n)))

/-- Schedule sigma-0. -/
def sSig0 (x : Nat) : Nat := rotr32 7 x ^^^ rotr32 18 x ^^^ (x >>> 3)

/-- Schedule sigma-1. -/
def sSig1 (x : Nat) : Nat := rotr32 17 x ^^^ rotr32 19 x ^^^ (x >>> 10)

/-- Compression Sigma-0. -/
def bSig0 (x : Nat) : Nat := rotr32 2 x ^^^ rotr32 13 x ^^^ rotr32 22 x

/-- Compression Sigma-1. -/
def bSig1 (x : Nat) : Nat := rotr32 6 x ^^^ rotr32 11 x ^^^ rotr32 25 x

/-- Choice function. -/
def chN (x y z : Nat) : Nat := (x &&& y) ^^^ ((x ^^^ 4294967295) &&& z)

/-- Majority function. -/
def majN (x y z : Nat) : Nat := (x &&& y) ^^^ (x &&& z) ^^^ (y &&& z)

/-- The 64 SHA-256 round constants. -/
def sha256K : List Nat :=
  [1116352408, 1899447441, 3049323471, 3921009573, 961987163,
   1508970993, 2453635748, 2870763221, 3624381080, 310598401,
   607225278, 1426881987, 1925078388, 2162078206, 2614888103,
   3248222580, 3835390401, 4022224774, 264347078, 604807628,
   770255983, 1249150122, 1555081692, 1996064986, 2554220882,
   2821834349, 2952996808, 3210313671, 3336571891, 3584528711,
   113926993, 338241895, 666307205, 773529912, 1294757372,
   1396182291, 1695183700, 1986661051, 2177026350, 2456956037,
   2730485921, 2820302411, 3259730800, 3345764771, 3516065817,
   3600352804, 4094571909, 275423344, 430227734, 506948616,
   659060556, 883997877, 958139571, 1322822218, 1537002063,
   1747873779, 1955562222, 2024104815, 2227730452, 2361852424,
   2428436474, 2756734187, 3204031479, 3329325298]

/-- The eight SHA-256 initial hash words. -/
def sha256Init : List Nat :=
  [1779033703, 3144134277, 1013904242, 2773480762,
   1359893119, 2600822924, 528734635, 1541459225]

/-- Big-endian 32-bit words from bytes. -/
def bytesToWords : List Nat → List Nat
  | a :: b :: c :: d :: rest => (a * 16777216 + b * 65536 + c * 256 + d) :: bytesToWords rest
  | _ => []

/-- Eight big-endian bytes of a 64-bit value. -/
def beBytes8 (n : Nat) : List Nat :=
  [n / 72057594037927936 % 256, n / 281474976710656 % 256, n / 1099511627776 % 256,
   n / 4294967296 % 256, n / 16777216 % 256, n / 65536 % 256, n / 256 % 256, n % 256]

/-- Four big-endian bytes of a 32-bit word. -/
def beBytes4 (n : Nat) : List Nat :=
  [n / 16777216 % 256, n / 65536 % 256, n / 256 % 256, n % 256]

/-- SHA-256 message padding: `0x80`, zeros to 56 mod 64, 64-bit bit length. -/
def sha256Pad (msg : List Nat) : List Nat :=
  let L := msg.length
  let padLen := (119 - L % 64) % 64
  msg ++ 128 :: List.replicate padLen 0 ++ beBytes8 (8 * L)

/-- Split into 64-byte blocks (fuelled for structural recursion). -/
def chunks64Aux : Nat → List Nat → List (List Nat)
  | 0, _ => []
  | _, [] => []
  | fuel + 1, l => l.take 64 :: chunks64Aux fuel (l.drop 64)

/-- Split into 64-byte blocks. -/
def chunks64 (l : List Nat) : List (List Nat) := chunks64Aux l.length l

/-- Extend the message schedule by one word. -/
def scheduleStep (ws : List Nat) : List Nat :=
  ws ++ [w32 (sSig1 (ws.getD (ws.length - 2) 0) + ws.getD (ws.length - 7) 0 +
              sSig0 (ws.getD (ws.length - 15) 0) + ws.getD (ws.length - 16) 0)]

/-- Iterate a function `n` times. -/
def iterN {α : Type} (f : α → α) : Nat → α → α
  | 0, x => x
  | n + 1, x => iterN f n (f x)

/-- One SHA-256 round on the eight working words. -/
def compressRound (st : List Nat) (kw : Nat × Nat) : List Nat :=
  match st with
  | [a, b, c, d, e, f, g, h] =>
    let t1 := w32 (h + bSig1 e + chN e f g + kw.1 + kw.2)
    let t2 := w32 (bSig0 a + majN a b c)
    [w32 (t1 + t2), a, b, c, w32 (d + t1), e, f, g]
  | other => other

/-- Compress one 64-byte block into the hash state. -/
def sha256Compress (hs : List Nat) (block : List Nat) : List Nat :=
  let ws := iterN scheduleStep 48 (bytesToWords block)
  let st := (sha256K.zip ws).foldl compressRound hs
  (hs.zip st).map (fun p => w32 (p.1 + p.2))

/-- SHA-256 digest (32 bytes) of a byte sequence. -/
def sha256Bytes (msg : List Nat) : List Nat :=
  (((chunks64 (sha256Pad msg)).foldl sha256Compress sha256Init).map beBytes4).flatten

/-- Lowercase hex digit. -/
def hexDigitChar (n : Nat) : Char := Char.ofNat (if n < 10 then 48 + n else 87 + n)

/-- `hex.EncodeToString`. -/
def hexOfBytes (bs : List Nat) : String :=
  String.mk ((bs.map (fun b => [hexDigitChar (b / 16), hexDigitChar (b % 16)])).flatten)

/-- `sha256.Sum256` of a string's UTF-8 bytes, rendered with
`hex.EncodeToString`. -/
def sha256hex (s : String) : String := hexOfBytes (sha256Bytes (strBytes s))

/-! ## Bundle options and the idempotency hash (part_006 lines 302-312,
pull.go lines 215-218) -/

/-- `BundleOptions` (part_006 line 302): optional lookback duration and
optional absolute cutoff. -/
structure BundleOptions where
  since : GoDuration
  after : GoTime
deriving DecidableEq, Repr

/-- `BundleOptions.HasAny` (part_006 line 310): `opt.Since != 0 ||
!opt.After.IsZero()`. -/
def BundleOptions.HasAny (opt : BundleOptions) : Bool :=
  opt.since ≠ 0 || opt.after ≠ 0

/-- `createHash` (pull.go line 215): SHA-256 over
`fmt.Sprintf("%s|%s|%s", head.CommitID, opt.After, opt.Since)`, hex encoded.
Only the commit ID of the head enters the preimage, together with the
formatted `After` time and `Since` duration. -/
def createHash (head : Head) (opt : BundleOptions) : String :=
  sha256hex (head.commitID ++ "|" ++ goTimeString opt.after ++ "|" ++ goDurationString opt.since)

/-! ## Mirror sync state machine (part_006 lines 58-238)

`SyncRepoToLocalTemp` chooses clone or pull by local presence and translates
go-git failures into the outcome classes the orchestrators consume. The
go-git calls are external effects; each call's result is an oracle input.
`SyncResult` records the Go return pair: `.ready` is a non-nil worktree with
nil error, `.notFound` is the `(nil, nil)` pair, `.authFailed` is the
`ErrAuthFailed` sentinel, and `.failed` carries any other error's text. -/

/-- Outcome of `SyncRepoToLocalTemp` as its callers observe it. -/
inductive SyncResult
  | ready
  | notFound
  | authFailed
  | failed (msg : String)
deriving DecidableEq, Repr

/-- Result of the `git.PlainClone` call (part_006 line 84), classified by the
sentinel errors the code tests with `errors.Is`. -/
inductive CloneCallResult
  | ok
  | errEmptyRemote
  | errNotFound
  | errAuthRequired
  | errOther (msg : String)
deriving DecidableEq, Repr

/-- Result of the `worktree.Pull` call (part_006 line 221), classified by the
sentinel errors the code tests with `errors.Is`. -/
inductive PullCallResult
  | ok
  | errAlreadyUpToDate
  | errAuthzFailed
  | errOther (msg : String)
deriving DecidableEq, Repr

/-- Oracle for the five failable steps of `initLocal` (part_006 line 147):
`PlainInit`, `CreateRemote`, `CreateBranch`, the symbolic-HEAD
`SetReference`, and `Worktree`. -/
structure InitSteps where
  plainInit : Except String Unit
  createRemote : Except String Unit
  createBranch : Except String Unit
  setHeadRef : Except String Unit
  worktree : Except String Unit
deriving Repr

/-- `initLocal` (part_006 line 147): orphan initialization of an empty
remote — init a repository, register the remote, create the tracking branch,
point the symbolic HEAD at it, and return the worktree; the first failing
step aborts with its wrapped error. -/
def initLocal (st : InitSteps) : SyncResult :=
  match st.plainInit with
  | .error e => .failed ("failed to init repository: " ++ e)
  | .ok _ =>
  match st.createRemote with
  | .error e => .failed ("failed to register remote repository: " ++ e)
  | .ok _ =>
  match st.createBranch with
  | .error e => .failed ("failed to create branch: " ++ e)
  | .ok _ =>
  match st.setHeadRef with
  | .error e => .failed ("failed to set HEAD: " ++ e)
  | .ok _ =>
  match st.worktree with
  | .error e => .failed ("failed to get worktree: " ++ e)
  | .ok _ => .ready

/-- Oracle for the external calls of `cloneRepoToLocalTemp`
(part_006 line 83). -/
structure CloneEnv where
  cloneCall : CloneCallResult
  initSteps : InitSteps
  worktree : Except String Unit
deriving Repr

/-- `cloneRepoToLocalTemp` (part_006 line 83): single-branch clone; an empty
remote falls through to `initLocal`, a missing remote returns the
`(nil, nil)` pair, an authentication rejection returns `ErrAuthFailed`, any
other clone error is wrapped. -/
def cloneRepoToLocalTemp (env : CloneEnv) : SyncResult :=
  match env.cloneCall with
  | .errEmptyRemote => initLocal env.initSteps
  | .errNotFound => .notFound
  | .errAuthRequired => .authFailed
  | .errOther m => .failed ("failed to clone repository: " ++ m)
  | .ok =>
    match env.worktree with
    | .error e => .failed e
    | .ok _ => .ready

/-- Oracle for the external calls of `pullRepoToLocalTemp`
(part_006 line 215). -/
structure PullEnv where
  getWorktree : Except String Unit
  pullCall : PullCallResult
deriving Repr

/-- `pullRepoToLocalTemp` (part_006 line 215): fetch-and-update restricted to
the branch; `NoErrAlreadyUpToDate` is success, `ErrAuthorizationFailed`
becomes `ErrAuthFailed`, any other pull error is wrapped. -/
def pullRepoToLocalTemp (env : PullEnv) : SyncResult :=
  match env.getWorktree with
  | .error e => .failed e
  | .ok _ =>
    match env.pullCall with
    | .ok => .ready
    | .errAlreadyUpToDate => .ready
    | .errAuthzFailed => .authFailed
    | .errOther m => .failed ("failed to pull repository: " ++ m)

/-- Oracle for `SyncRepoToLocalTemp` (part_006 line 71): the `ExistsLocal`
probe plus the clone-path and pull-path oracles. -/
structure SyncEnv where
  existsLocal : Except String Bool
  cloneEnv : CloneEnv
  pullEnv : PullEnv
deriving Repr

/-- `SyncRepoToLocalTemp` (part_006 line 71): pull when a local mirror
exists, clone otherwise. -/
def SyncRepoToLocalTemp (env : SyncEnv) : SyncResult :=
  match env.existsLocal with
  | .error e => .failed e
  | .ok true => pullRepoToLocalTemp env.pullEnv
  | .ok false => cloneRepoToLocalTemp env.cloneEnv

/-! ## Pull orchestrator (pull.go lines 93-184)

`GitPullHandler.pull` sequences NewGIT → mirror sync → branch probe → commit
probe → bundle creation → head listing, and renders one HTTP outcome.
External-process and go-git results are oracle inputs; the parsing of the
head listing is the real `ParseBundleListHeadsOutput`. `HttpOutcome` is the
response the handler writes: status class plus body (for 2xx/204 the payload
or reason). -/

/-- HTTP response written by the pull handler. -/
structure PullPayload where
  headCommit : String
  filteredIsPart : Bool
  idempotencyHash : String
  bundleData : List Nat
deriving DecidableEq, Repr

/-- Outcome classes of the pull handler, mirroring the status codes it
writes: 500, 401, 404, 204 (with reason body) and 200 (with payload). -/
inductive HttpOutcome
  | internalError (msg : String)
  | unauthorized (msg : String)
  | notFound (msg : String)
  | noContent (body : String)
  | success (payload : PullPayload)
deriving DecidableEq, Repr

/-- Oracle for the pull orchestrator's external steps: the sync oracle, the
two local probes, the `git bundle create` run (bytes or `CommandError`) and
the `git bundle list-heads` run (raw stdout or `CommandError`). -/
structure PullStepEnv where
  syncEnv : SyncEnv
  hasLocalBranch : Except String Bool
  hasLocalCommits : Except String Bool
  createBundle : Except CommandError (List Nat)
  listHeadsCmd : Except CommandError String
deriving Repr

/-- `GetBundleListHeads` (part_006 line 440): a failed run yields the
command error, otherwise the stdout is parsed. (The model carries the
command error's message text.) -/
def GetBundleListHeads (cmdResult : Except CommandError String) : Except String (List Head) :=
  match cmdResult with
  | .error ce => .error ce.message
  | .ok stdout => ParseBundleListHeadsOutput stdout

/-- Marker git prints when refusing to create an empty bundle
(pull.go line 150). -/
def emptyBundleMarker : String := "Refusing to create empty bundle"

/-- `GitPullHandler.pull` (pull.go line 93). `now` is the wall-clock reading
of `time.Now()` at the empty-bundle branch; Go renders that time with `%v`,
modelled by `goTimeString` on the wall reading. Error bodies concatenate the
Go format strings with the wrapped error text. -/
def GitPullHandler.pull (tempDir : String) (remoteRepo : RemoteRepo) (opt : BundleOptions)
    (now : GoTime) (env : PullStepEnv) : HttpOutcome :=
  match NewGIT tempDir remoteRepo with
  | .error _ => .internalError "internal error"
  | .ok _ =>
  match SyncRepoToLocalTemp env.syncEnv with
  | .authFailed => .unauthorized "authentication required"
  | .failed e => .internalError ("failed to sync repository: " ++ e)
  | .notFound => .notFound "remote repository does not exist"
  | .ready =>
  match env.hasLocalBranch with
  | .error e => .internalError ("failed to check if branch exists: " ++ e)
  | .ok false => .noContent "branch not found"
  | .ok true =>
  match env.hasLocalCommits with
  | .error e => .internalError ("failed to check if branch has commits: " ++ e)
  | .ok false => .noContent "no commits"
  | .ok true =>
  match env.createBundle with
  | .error cmdErr =>
    if opt.HasAny && goStringsContains cmdErr.stdErr emptyBundleMarker then
      .noContent ("no new commits since " ++ goTimeString (now - opt.since))
    else .internalError ("Failed to create bundle: " ++ cmdErr.message)
  | .ok bundleData =>
  match GetBundleListHeads env.listHeadsCmd with
  | .error e => .internalError ("Failed to get bundle info: " ++ e)
  | .ok heads =>
    match heads with
    | [head] => .success ⟨head.commitID, opt.HasAny, createHash head opt, bundleData⟩
    | _ => .internalError "Expected exactly one head"

/-- `GitPullHandler.ServeHTTP` outcome (pull.go line 35), up to the handoff
to `pull`: argument extraction failures are 400 responses; the parsing of
the `since`/`after` query values by the time package is an oracle
(`optParse`), whose failure is also a 400. -/
inductive ServeOutcome
  | badRequest (msg : String)
  | handled (o : HttpOutcome)
deriving DecidableEq, Repr

/-- See `ServeOutcome`. -/
def GitPullHandler.serveHTTP (tempDir repository branch authHeader : String)
    (optParse : Except String BundleOptions) (now : GoTime) (env : PullStepEnv) : ServeOutcome :=
  match extractArgs repository branch authHeader with
  | .error e => .badRequest e
  | .ok remoteRepo =>
    match optParse with
    | .error e => .badRequest e
    | .ok opt => .handled (GitPullHandler.pull tempDir remoteRepo opt now env)

/-! ## Bundle application scratch-file lifecycle (part_006 lines 265-300) -/

/-- State of the scratch area `ApplyBundleToLocal` manages: whether the
random temp directory and the bundle file inside it exist. -/
structure ScratchState where
  dirExists : Bool
  fileExists : Bool
deriving DecidableEq, Repr

/-- `os.RemoveAll` on the scratch directory: removes the directory and
everything inside it. -/
def removeAll (_ : ScratchState) : ScratchState := ⟨false, false⟩

/-- Oracle for the failable steps of `ApplyBundleToLocal`: creating the
random temp dir, opening the temp file, copying the request body into it,
and the external `git pull <bundle>` run. -/
structure ApplyEnv where
  mkTempDir : Except String Unit
  openFile : Except String Unit
  copyBody : Except String Unit
  runGitPull : Except CommandError Unit
deriving Repr

/-- Result of `ApplyBundleToLocal` as its caller observes it. -/
inductive ApplyResult
  | ok
  | errWrapped (msg : String)
  | errCommand (ce : CommandError)
deriving DecidableEq, Repr

/-- `ApplyBundleToLocal` (part_006 line 265): create a random scratch
directory, register `defer os.RemoveAll(dir)`, write the body to the bundle
file inside it, run `git pull` on that file. The returned pair is the Go
result together with the final scratch state; the deferred removal applies
to every exit of the body after the directory exists. -/
def ApplyBundleToLocal (env : ApplyEnv) : ApplyResult × ScratchState :=
  match env.mkTempDir with
  | .error e => (.errWrapped ("failed to create temp dir: " ++ e), ⟨false, false⟩)
  | .ok _ =>
    let afterDir : ScratchState := ⟨true, false⟩
    let body : ApplyResult × ScratchState :=
      match env.openFile with
      | .error e => (.errWrapped ("failed to create temp file for bundle: " ++ e), afterDir)
      | .ok _ =>
        let afterOpen : ScratchState := ⟨true, true⟩
        match env.copyBody with
        | .error e => (.errWrapped ("failed to write bundle to temp file: " ++ e), afterOpen)
        | .ok _ =>
          match env.runGitPull with
          | .error ce => (.errCommand ce, afterOpen)
          | .ok _ => (.ok, afterOpen)
    (body.1, removeAll body.2)
/-! ## Sanity checks of the embedding -/

/-- The head-listing parser on a well-formed single-head listing. -/
theorem parseListHeads_sanity :
    ParseBundleListHeadsOutput "abc refs/heads/main" = .ok [⟨"abc", "refs/heads/main"⟩] := by
  rfl

set_option maxHeartbeats 2000000 in
/-- The verify-report parser on a representative complete-bundle report. -/
theorem parseVerify_sanity :
    ParseBundleVerifyOutput
      ("The bundle contains this ref:\nrefs/heads/main\n" ++
       "The bundle records a complete history.\n" ++
       "The bundle uses this hash algorithm: sha1\n" ++
       "bundle.file is okay\n")
    = ⟨true, "refs/heads/main", "", "sha1", true⟩ := by decide

/-- The embedded SHA-256 matches the FIPS 180-4 test vector for "abc". -/
theorem sha256_sanity :
    sha256hex "abc" = "ba7816bf8f01cfea414140de5dae2223b00361a396177a9cb410ff61f20015ad" := by
  decide

/-! ## Claim C3 -/

/-- C3: bundle verification is claimed to accept a `BundleInfo` iff it is
well-formed, has a non-empty contained ref, and is complete or declares a
required ref. The code inverts the third condition: evaluated at a partial
bundle that does declare its prerequisite (usable per the claim and per the
code's own error message), `Validate` rejects it — with a message asserting
the required ref is missing — while it accepts the partial bundle that
declares no prerequisite, which the claim requires to be rejected. -/
theorem C3_validate_inverted :
    (bundleUsableSpec ⟨false, "refs/heads/main", "refs/heads/prereq", "sha256", true⟩ = true
      ∧ BundleInfo.Validate ⟨false, "refs/heads/main", "refs/heads/prereq", "sha256", true⟩
          = some "bundle does not specify required ref, but is partial")
  ∧ (bundleUsableSpec ⟨false, "refs/heads/main", "", "sha256", true⟩ = false
      ∧ BundleInfo.Validate ⟨false, "refs/heads/main", "", "sha256", true⟩ = none) := by
  decide

/-! ## Claim C9 -/

/-- C9: after the scratch directory is created, every return path of
`ApplyBundleToLocal` — write failure, ingestion failure or success — ends
with the deferred removal having deleted the scratch directory and the
bundle file inside it; and when the body write fails, the ingestion step is
never consulted (the outcome is independent of the `git pull` oracle). -/
theorem C9_scratch_cleanup (env1 env2 : ApplyEnv) (e : String)
    (r1 r2 : Except CommandError Unit)
    (hmk : env1.mkTempDir = .ok ())
    (hcopy : env2.copyBody = .error e) :
    (ApplyBundleToLocal env1).2 = ⟨false, false⟩
  ∧ ApplyBundleToLocal { env2 with runGitPull := r1 }
      = ApplyBundleToLocal { env2 with runGitPull := r2 } := by
  constructor
  · obtain ⟨mk, op, cp, run⟩ := env1
    simp only at hmk
    subst hmk
    cases op <;> cases cp <;> cases run <;> rfl
  · obtain ⟨mk, op, cp, run⟩ := env2
    simp only at hcopy
    subst hcopy
    cases mk <;> cases op <;> rfl

/-- Witness for C9 at a concrete environment. -/
theorem C9_scratch_cleanup_witness :
    (ApplyBundleToLocal ⟨.ok (), .ok (), .ok (), .error ⟨"x", "m", 1, "s"⟩⟩).2 = ⟨false, false⟩
  ∧ ApplyBundleToLocal ⟨.ok (), .ok (), .error "w", .error ⟨"x", "m", 1, "s"⟩⟩
      = ApplyBundleToLocal ⟨.ok (), .ok (), .error "w", .ok ()⟩ :=
  C9_scratch_cleanup ⟨.ok (), .ok (), .ok (), .error ⟨"x", "m", 1, "s"⟩⟩
    ⟨.ok (), .ok (), .error "w", .ok ()⟩ "w" (.error ⟨"x", "m", 1, "s"⟩) (.ok ()) rfl rfl

/-! ## Claim C4 -/

/-- C4: `SyncRepoToLocalTemp` classifies outcomes as claimed. With no local
mirror: an empty remote falls through to orphan initialization (and all-ok
initialization yields a ready mirror), a missing remote is the not-found
outcome, an authentication rejection is the auth-failed outcome. With an
existing mirror: `NoErrAlreadyUpToDate` on pull is a success, an
authorization failure is the auth-failed outcome, and any other pull error
is a failure distinct from auth-failed. -/
theorem C4_sync_classification (e1 e2 e3 p1 p2 p3 : SyncEnv) (m : String)
    (h1 : e1.existsLocal = .ok false) (h1c : e1.cloneEnv.cloneCall = .errEmptyRemote)
    (h2 : e2.existsLocal = .ok false) (h2c : e2.cloneEnv.cloneCall = .errNotFound)
    (h3 : e3.existsLocal = .ok false) (h3c : e3.cloneEnv.cloneCall = .errAuthRequired)
    (h4 : p1.existsLocal = .ok true) (h4w : p1.pullEnv.getWorktree = .ok ())
    (h4p : p1.pullEnv.pullCall = .errAlreadyUpToDate)
    (h5 : p2.existsLocal = .ok true) (h5w : p2.pullEnv.getWorktree = .ok ())
    (h5p : p2.pullEnv.pullCall = .errAuthzFailed)
    (h6 : p3.existsLocal = .ok true) (h6w : p3.pullEnv.getWorktree = .ok ())
    (h6p : p3.pullEnv.pullCall = .errOther m) :
    SyncRepoToLocalTemp e1 = initLocal e1.cloneEnv.initSteps
  ∧ initLocal ⟨.ok (), .ok (), .ok (), .ok (), .ok ()⟩ = .ready
  ∧ SyncRepoToLocalTemp e2 = .notFound
  ∧ SyncRepoToLocalTemp e3 = .authFailed
  ∧ SyncRepoToLocalTemp p1 = .ready
  ∧ SyncRepoToLocalTemp p2 = .authFailed
  ∧ SyncRepoToLocalTemp p3 = .failed ("failed to pull repository: " ++ m)
  ∧ SyncRepoToLocalTemp p3 ≠ .authFailed := by
  refine ⟨?_, rfl, ?_, ?_, ?_, ?_, ?_, ?_⟩
  · simp [SyncRepoToLocalTemp, h1, cloneRepoToLocalTemp, h1c]
  · simp [SyncRepoToLocalTemp, h2, cloneRepoToLocalTemp, h2c]
  · simp [SyncRepoToLocalTemp, h3, cloneRepoToLocalTemp, h3c]
  · simp [SyncRepoToLocalTemp, h4, pullRepoToLocalTemp, h4w, h4p]
  · simp [SyncRepoToLocalTemp, h5, pullRepoToLocalTemp, h5w, h5p]
  · simp [SyncRepoToLocalTemp, h6, pullRepoToLocalTemp, h6w, h6p]
  · simp [SyncRepoToLocalTemp, h6, pullRepoToLocalTemp, h6w, h6p]

/-- Concrete environments instantiating every case of C4. -/
theorem C4_sync_classification_witness :
    SyncRepoToLocalTemp ⟨.ok false, ⟨.errEmptyRemote, ⟨.ok (), .ok (), .ok (), .ok (), .ok ()⟩,
        .ok ()⟩, ⟨.ok (), .ok⟩⟩
      = initLocal ⟨.ok (), .ok (), .ok (), .ok (), .ok ()⟩
  ∧ initLocal ⟨.ok (), .ok (), .ok (), .ok (), .ok ()⟩ = .ready
  ∧ SyncRepoToLocalTemp ⟨.ok false, ⟨.errNotFound, ⟨.ok (), .ok (), .ok (), .ok (), .ok ()⟩,
        .ok ()⟩, ⟨.ok (), .ok⟩⟩ = .notFound
  ∧ SyncRepoToLocalTemp ⟨.ok false, ⟨.errAuthRequired, ⟨.ok (), .ok (), .ok (), .ok (), .ok ()⟩,
        .ok ()⟩, ⟨.ok (), .ok⟩⟩ = .authFailed
  ∧ SyncRepoToLocalTemp ⟨.ok true, ⟨.ok, ⟨.ok (), .ok (), .ok (), .ok (), .ok ()⟩, .ok ()⟩,
        ⟨.ok (), .errAlreadyUpToDate⟩⟩ = .ready
  ∧ SyncRepoToLocalTemp ⟨.ok true, ⟨.ok, ⟨.ok (), .ok (), .ok (), .ok (), .ok ()⟩, .ok ()⟩,
        ⟨.ok (), .errAuthzFailed⟩⟩ = .authFailed
  ∧ SyncRepoToLocalTemp ⟨.ok true, ⟨.ok, ⟨.ok (), .ok (), .ok (), .ok (), .ok ()⟩, .ok ()⟩,
        ⟨.ok (), .errOther "boom"⟩⟩ = .failed ("failed to pull repository: " ++ "boom")
  ∧ SyncRepoToLocalTemp ⟨.ok true, ⟨.ok, ⟨.ok (), .ok (), .ok (), .ok (), .ok ()⟩, .ok ()⟩,
        ⟨.ok (), .errOther "boom"⟩⟩ ≠ .authFailed :=
  C4_sync_classification
    ⟨.ok false, ⟨.errEmptyRemote, ⟨.ok (), .ok (), .ok (), .ok (), .ok ()⟩, .ok ()⟩, ⟨.ok (), .ok⟩⟩
    ⟨.ok false, ⟨.errNotFound, ⟨.ok (), .ok (), .ok (), .ok (), .ok ()⟩, .ok ()⟩, ⟨.ok (), .ok⟩⟩
    ⟨.ok false, ⟨.errAuthRequired, ⟨.ok (), .ok (), .ok (), .ok (), .ok ()⟩, .ok ()⟩, ⟨.ok (), .ok⟩⟩
    ⟨.ok true, ⟨.ok, ⟨.ok (), .ok (), .ok (), .ok (), .ok ()⟩, .ok ()⟩, ⟨.ok (), .errAlreadyUpToDate⟩⟩
    ⟨.ok true, ⟨.ok, ⟨.ok (), .ok (), .ok (), .ok (), .ok ()⟩, .ok ()⟩, ⟨.ok (), .errAuthzFailed⟩⟩
    ⟨.ok true, ⟨.ok, ⟨.ok (), .ok (), .ok (), .ok (), .ok ()⟩, .ok ()⟩, ⟨.ok (), .errOther "boom"⟩⟩
    "boom" rfl rfl rfl rfl rfl rfl rfl rfl rfl rfl rfl rfl rfl rfl rfl

/-! ## Claim C10 -/

/-- C10: `NewGIT` fails exactly when the temp directory, URL, branch or
token is empty (so a non-empty token is required to construct the mirror
manager every operation goes through), and a pull request whose
Authorization header is absent or not of the Bearer scheme is answered as
bad input by the entry point, never served anonymously. -/
theorem C10_constructor_token_mandatory (tempDir : String) (repo : RemoteRepo)
    (h tempDir2 repository branch : String) (optParse : Except String BundleOptions)
    (now : GoTime) (env : PullStepEnv)
    (hb : goHasPrefix h "Bearer " = false) :
    ((NewGIT tempDir repo).isOk = false ↔
       (tempDir = "" ∨ repo.url = "" ∨ repo.branch = "" ∨ repo.token = ""))
  ∧ ((extractAuthToken h).isOk = false)
  ∧ (∃ msg, GitPullHandler.serveHTTP tempDir2 repository branch h optParse now env
       = .badRequest msg) := by
  have hauth : extractAuthToken h = .error "no Authorization header" ∨
      extractAuthToken h = .error "invalid Authorization header" := by
    unfold extractAuthToken
    by_cases hh : h = ""
    · left; rw [if_pos hh]
    · right; rw [if_neg hh, if_pos (by simp [hb])]
  refine ⟨?_, ?_, ?_⟩
  · unfold NewGIT
    split <;> rename_i c1
    · simp [Except.isOk, Except.toBool, c1]
    · split <;> rename_i c2
      · simp [Except.isOk, Except.toBool, c1, c2]
      · split <;> rename_i c3
        · simp [Except.isOk, Except.toBool, c1, c2, c3]
        · split <;> rename_i c4 <;> simp [Except.isOk, Except.toBool, c1, c2, c3, c4]
  · rcases hauth with ha | ha <;> rw [ha] <;> rfl
  · obtain ⟨msg, hmsg⟩ : ∃ msg, extractArgs repository branch h = .error msg := by
      unfold extractArgs
      by_cases hr : repository = ""
      · rw [if_pos hr]; exact ⟨_, rfl⟩
      · rw [if_neg hr]
        by_cases hbr : branch = ""
        · rw [if_pos hbr]; exact ⟨_, rfl⟩
        · rw [if_neg hbr]
          rcases hauth with ha | ha <;> rw [ha] <;> exact ⟨_, rfl⟩
    exact ⟨msg, by unfold GitPullHandler.serveHTTP; rw [hmsg]⟩

/-- Witness for C10 at concrete inputs (a non-Bearer header). -/
theorem C10_constructor_token_mandatory_witness :
    ((NewGIT "tmp" ⟨"u", "b", ""⟩).isOk = false ↔
       ("tmp" = "" ∨ "u" = "" ∨ "b" = "" ∨ "" = ""))
  ∧ ((extractAuthToken "Basic xyz").isOk = false)
  ∧ (∃ msg, GitPullHandler.serveHTTP "t2" "repo" "main" "Basic xyz" (.ok ⟨0, 0⟩) 0
       ⟨⟨.ok true, ⟨.ok, ⟨.ok (), .ok (), .ok (), .ok (), .ok ()⟩, .ok ()⟩, ⟨.ok (), .ok⟩⟩,
        .ok true, .ok true, .ok [], .ok ""⟩
       = .badRequest msg) :=
  C10_constructor_token_mandatory "tmp" ⟨"u", "b", ""⟩ "Basic xyz" "t2" "repo" "main"
    (.ok ⟨0, 0⟩) 0
    ⟨⟨.ok true, ⟨.ok, ⟨.ok (), .ok (), .ok (), .ok (), .ok ()⟩, .ok ()⟩, ⟨.ok (), .ok⟩⟩,
     .ok true, .ok true, .ok [], .ok ""⟩
    (by decide)

/-! ## Claim C2 -/

/-- Each alphabet index decodes back through `base64urlInv`. -/
theorem base64urlInv_idx : ∀ n, n < 64 → base64urlInv (base64urlIdx n) = n := by decide

/-- No alphabet byte is the padding byte `=` (61). -/
theorem base64urlIdx_ne_61 : ∀ n, n < 64 → base64urlIdx n ≠ 61 := by decide

/-- Decoder equation: a block padded with two `=` bytes. -/
theorem base64urlDecode_eq1 (c1 c2 c4 : Nat) (rest : GoBytes) :
    base64urlDecode (c1 :: c2 :: 61 :: c4 :: rest)
      = [base64urlInv c1 * 4 + base64urlInv c2 / 16] := by
  simp [base64urlDecode]

/-- Decoder equation: a block padded with one `=` byte. -/
theorem base64urlDecode_eq2 (c1 c2 c3 : Nat) (rest : GoBytes) (h3 : c3 ≠ 61) :
    base64urlDecode (c1 :: c2 :: c3 :: 61 :: rest)
      = [base64urlInv c1 * 4 + base64urlInv c2 / 16,
         base64urlInv c2 % 16 * 16 + base64urlInv c3 / 4] := by
  simp [base64urlDecode, h3]

/-- Decoder equation: an unpadded block. -/
theorem base64urlDecode_eq3 (c1 c2 c3 c4 : Nat) (rest : GoBytes)
    (h3 : c3 ≠ 61) (h4 : c4 ≠ 61) :
    base64urlDecode (c1 :: c2 :: c3 :: c4 :: rest)
      = (base64urlInv c1 * 4 + base64urlInv c2 / 16) ::
        (base64urlInv c2 % 16 * 16 + base64urlInv c3 / 4) ::
        (base64urlInv c3 % 4 * 64 + base64urlInv c4) ::
        base64urlDecode rest := by
  simp [base64urlDecode, h3, h4]

/-- The decoder inverts the encoder on byte sequences. -/
theorem base64url_decode_encode : ∀ xs : GoBytes, (∀ x ∈ xs, x < 256) →
    base64urlDecode (base64urlEncode xs) = xs
  | [], _ => rfl
  | [a], h => by
    have ha : a < 256 := h a (by simp)
    show base64urlDecode [base64urlIdx (a / 4), base64urlIdx (a % 4 * 16), 61, 61] = [a]
    rw [base64urlDecode_eq1, base64urlInv_idx (a / 4) (by omega),
        base64urlInv_idx (a % 4 * 16) (by omega)]
    congr 1
    omega
  | [a, b], h => by
    have ha : a < 256 := h a (by simp)
    have hb : b < 256 := h b (by simp)
    show base64urlDecode [base64urlIdx (a / 4), base64urlIdx (a % 4 * 16 + b / 16),
        base64urlIdx (b % 16 * 4), 61] = [a, b]
    rw [base64urlDecode_eq2 _ _ _ _ (base64urlIdx_ne_61 (b % 16 * 4) (by omega)),
        base64urlInv_idx (a / 4) (by omega),
        base64urlInv_idx (a % 4 * 16 + b / 16) (by omega),
        base64urlInv_idx (b % 16 * 4) (by omega)]
    congr 1
    · omega
    · congr 1
      omega
  | a :: b :: c :: rest, h => by
    have ha : a < 256 := h a (by simp)
    have hb : b < 256 := h b (by simp)
    have hc : c < 256 := h c (by simp)
    have hrest : ∀ x ∈ rest, x < 256 := fun x hx => h x (by simp [hx])
    show base64urlDecode (base64urlIdx (a / 4) :: base64urlIdx (a % 4 * 16 + b / 16) ::
        base64urlIdx (b % 16 * 4 + c / 64) :: base64urlIdx (c % 64) ::
        base64urlEncode rest) = a :: b :: c :: rest
    rw [base64urlDecode_eq3 _ _ _ _ _
          (base64urlIdx_ne_61 (b % 16 * 4 + c / 64) (by omega))
          (base64urlIdx_ne_61 (c % 64) (by omega)),
        base64urlInv_idx (a / 4) (by omega),
        base64urlInv_idx (a % 4 * 16 + b / 16) (by omega),
        base64urlInv_idx (b % 16 * 4 + c / 64) (by omega),
        base64urlInv_idx (c % 64) (by omega),
        base64url_decode_encode rest hrest]
    congr 1
    · omega
    · congr 1
      · omega
      · congr 1
        omega

/-- `base64urlEncode` is injective on byte sequences, hence so is the
work-directory name on the concatenation `url ++ branch`. -/
theorem base64urlEncode_inj (xs ys : GoBytes) (hx : ∀ x ∈ xs, x < 256)
    (hy : ∀ y ∈ ys, y < 256) (h : base64urlEncode xs = base64urlEncode ys) : xs = ys := by
  have h2 := congrArg base64urlDecode h
  rwa [base64url_decode_encode xs hx, base64url_decode_encode ys hy] at h2

/-- Membership in the URL-safe base64 output alphabet (including padding). -/
def isBase64urlByte (c : Nat) : Bool :=
  (65 ≤ c && c ≤ 90) || (97 ≤ c && c ≤ 122) || (48 ≤ c && c ≤ 57) ||
  c = 45 || c = 95 || c = 61

/-- Every alphabet byte is in the URL-safe set, for any index argument. -/
theorem isBase64urlByte_idx (n : Nat) : isBase64urlByte (base64urlIdx n) = true := by
  unfold base64urlIdx
  split <;> rename_i h1
  · simp only [isBase64urlByte, Bool.or_eq_true, Bool.and_eq_true, decide_eq_true_eq]
    omega
  · split <;> rename_i h2
    · simp only [isBase64urlByte, Bool.or_eq_true, Bool.and_eq_true, decide_eq_true_eq]
      omega
    · split <;> rename_i h3
      · simp only [isBase64urlByte, Bool.or_eq_true, Bool.and_eq_true, decide_eq_true_eq]
        omega
      · split <;> rfl

/-- Every byte the encoder emits lies in the URL-safe set. -/
theorem base64urlEncode_bytes_safe :
    ∀ xs : GoBytes, ∀ c ∈ base64urlEncode xs, isBase64urlByte c = true
  | [], c, hc => by simp [base64urlEncode] at hc
  | [a], c, hc => by
    simp only [base64urlEncode, List.mem_cons, List.not_mem_nil, or_false] at hc
    rcases hc with h | h | h | h <;> subst h <;> first | exact isBase64urlByte_idx _ | rfl
  | [a, b], c, hc => by
    simp only [base64urlEncode, List.mem_cons, List.not_mem_nil, or_false] at hc
    rcases hc with h | h | h | h <;> subst h <;> first | exact isBase64urlByte_idx _ | rfl
  | a :: b :: c0 :: rest, c, hc => by
    simp only [base64urlEncode, List.mem_cons] at hc
    rcases hc with h | h | h | h | h
    · subst h; exact isBase64urlByte_idx _
    · subst h; exact isBase64urlByte_idx _
    · subst h; exact isBase64urlByte_idx _
    · subst h; exact isBase64urlByte_idx _
    · exact base64urlEncode_bytes_safe rest c h

/-- C2 (amended): the workdir resolver is deterministic by construction, its
encoded segment uses only URL-safe bytes (never a path separator or NUL),
and it is injective in the byte concatenation `url ++ branch`: two requests
whose concatenations differ get distinct mirror directories under the same
temp root. (Injectivity on the pair `(url, branch)` itself fails; see the
counterexample.) -/
theorem C2_workdir_amended (t u1 b1 u2 b2 : GoBytes)
    (h1 : ∀ x ∈ u1 ++ b1, x < 256) (h2 : ∀ x ∈ u2 ++ b2, x < 256)
    (hne : u1 ++ b1 ≠ u2 ++ b2) :
    getWorkDir t u1 b1 ≠ getWorkDir t u2 b2
  ∧ (∀ c ∈ base64urlEncode (u1 ++ b1), isBase64urlByte c = true)
  ∧ isBase64urlByte 47 = false ∧ isBase64urlByte 0 = false := by
  refine ⟨?_, fun c hc => base64urlEncode_bytes_safe _ c hc, rfl, rfl⟩
  intro heq
  apply hne
  apply base64urlEncode_inj _ _ h1 h2
  unfold getWorkDir goFilepathJoin at heq
  have h3 := List.append_cancel_left heq
  injection h3

/-- Witness for the amended C2 at concrete byte strings. -/
theorem C2_workdir_amended_witness :
    getWorkDir [116] [97] [] ≠ getWorkDir [116] [98] []
  ∧ (∀ c ∈ base64urlEncode ([97] ++ []), isBase64urlByte c = true)
  ∧ isBase64urlByte 47 = false ∧ isBase64urlByte 0 = false :=
  C2_workdir_amended [116] [97] [] [98] [] (by decide) (by decide) (by decide)

/-- C2, counterexample to the claim as stated: the pairs `("ab", "c")` and
`("a", "bc")` (bytes shown) are distinct, yet their concatenations coincide,
so `getWorkDir` resolves both to the same mirror directory under the same
temp root. -/
theorem C2_workdir_counterexample :
    (([97, 98], [99]) : GoBytes × GoBytes) ≠ ([97], [98, 99])
  ∧ getWorkDir [116] [97, 98] [99] = getWorkDir [116] [97] [98, 99] := by decide

/-! ## Claim C5 -/

/-- C5: with a ready mirror, an absent branch reference yields
NoContent("branch not found"); a present branch with no commits yields
NoContent("no commits"); and the bundle-creation and head-listing oracles
are never consulted unless both probes returned true — the outcome is
independent of them. -/
theorem C5_pull_probe_order (tempDir : String) (repo : RemoteRepo) (opt : BundleOptions)
    (now : GoTime) (env1 env2 env3 : PullStepEnv)
    (cb1 cb2 : Except CommandError (List Nat)) (lh1 lh2 : Except CommandError String)
    (hg : (NewGIT tempDir repo).isOk = true)
    (h1s : SyncRepoToLocalTemp env1.syncEnv = .ready)
    (h1b : env1.hasLocalBranch = .ok false)
    (h2s : SyncRepoToLocalTemp env2.syncEnv = .ready)
    (h2b : env2.hasLocalBranch = .ok true)
    (h2c : env2.hasLocalCommits = .ok false)
    (h3 : env3.hasLocalBranch ≠ .ok true ∨ env3.hasLocalCommits ≠ .ok true) :
    GitPullHandler.pull tempDir repo opt now env1 = .noContent "branch not found"
  ∧ GitPullHandler.pull tempDir repo opt now env2 = .noContent "no commits"
  ∧ GitPullHandler.pull tempDir repo opt now
      { env3 with createBundle := cb1, listHeadsCmd := lh1 }
    = GitPullHandler.pull tempDir repo opt now
      { env3 with createBundle := cb2, listHeadsCmd := lh2 } := by
  obtain ⟨g, hNg⟩ : ∃ g, NewGIT tempDir repo = .ok g := by
    cases hNg : NewGIT tempDir repo with
    | ok g => exact ⟨g, rfl⟩
    | error e => rw [hNg] at hg; simp [Except.isOk, Except.toBool] at hg
  refine ⟨?_, ?_, ?_⟩
  · unfold GitPullHandler.pull
    simp [hNg, h1s, h1b]
  · unfold GitPullHandler.pull
    simp [hNg, h2s, h2b, h2c]
  · unfold GitPullHandler.pull
    simp only [hNg]
    cases hS : SyncRepoToLocalTemp env3.syncEnv
    case authFailed => rfl
    case notFound => rfl
    case failed e => rfl
    case ready =>
      cases hLB : env3.hasLocalBranch with
      | error e => simp [hLB]
      | ok b =>
        cases b
        · simp [hLB]
        · cases hLC : env3.hasLocalCommits with
          | error e => simp [hLB, hLC]
          | ok c =>
            cases c
            · simp [hLB, hLC]
            · rcases h3 with h3 | h3
              · exact absurd hLB h3
              · exact absurd hLC h3

/-- Witness for C5 at concrete environments. -/
theorem C5_pull_probe_order_witness :
    GitPullHandler.pull "tmp" ⟨"u", "b", "tok"⟩ ⟨0, 0⟩ 0
      ⟨⟨.ok true, ⟨.ok, ⟨.ok (), .ok (), .ok (), .ok (), .ok ()⟩, .ok ()⟩, ⟨.ok (), .ok⟩⟩,
       .ok false, .ok true, .ok [], .ok ""⟩ = .noContent "branch not found"
  ∧ GitPullHandler.pull "tmp" ⟨"u", "b", "tok"⟩ ⟨0, 0⟩ 0
      ⟨⟨.ok true, ⟨.ok, ⟨.ok (), .ok (), .ok (), .ok (), .ok ()⟩, .ok ()⟩, ⟨.ok (), .ok⟩⟩,
       .ok true, .ok false, .ok [], .ok ""⟩ = .noContent "no commits"
  ∧ GitPullHandler.pull "tmp" ⟨"u", "b", "tok"⟩ ⟨0, 0⟩ 0
      { (⟨⟨.ok true, ⟨.ok, ⟨.ok (), .ok (), .ok (), .ok (), .ok ()⟩, .ok ()⟩, ⟨.ok (), .ok⟩⟩,
          .ok false, .ok true, .ok [], .ok ""⟩ : PullStepEnv) with
        createBundle := .ok [7], listHeadsCmd := .ok "x y" }
    = GitPullHandler.pull "tmp" ⟨"u", "b", "tok"⟩ ⟨0, 0⟩ 0
      { (⟨⟨.ok true, ⟨.ok, ⟨.ok (), .ok (), .ok (), .ok (), .ok ()⟩, .ok ()⟩, ⟨.ok (), .ok⟩⟩,
          .ok false, .ok true, .ok [], .ok ""⟩ : PullStepEnv) with
        createBundle := .error ⟨"e", "m", 1, "s"⟩, listHeadsCmd := .ok "" } :=
  C5_pull_probe_order "tmp" ⟨"u", "b", "tok"⟩ ⟨0, 0⟩ 0
    ⟨⟨.ok true, ⟨.ok, ⟨.ok (), .ok (), .ok (), .ok (), .ok ()⟩, .ok ()⟩, ⟨.ok (), .ok⟩⟩,
     .ok false, .ok true, .ok [], .ok ""⟩
    ⟨⟨.ok true, ⟨.ok, ⟨.ok (), .ok (), .ok (), .ok (), .ok ()⟩, .ok ()⟩, ⟨.ok (), .ok⟩⟩,
     .ok true, .ok false, .ok [], .ok ""⟩
    ⟨⟨.ok true, ⟨.ok, ⟨.ok (), .ok (), .ok (), .ok (), .ok ()⟩, .ok ()⟩, ⟨.ok (), .ok⟩⟩,
     .ok false, .ok true, .ok [], .ok ""⟩
    (.ok [7]) (.error ⟨"e", "m", 1, "s"⟩) (.ok "x y") (.ok "")
    (by decide) rfl rfl rfl rfl rfl (Or.inl (by simp))

/-! ## Claim C6 -/

/-- Sound direction of the head-line parser: every line of a successfully
parsed listing splits into exactly two space-separated fields. -/
theorem parseHeadsLines_ok_shape : ∀ (ls : List String) (hs : List Head),
    parseHeadsLines ls = .ok hs → ∀ l ∈ ls, (goStringsSplit l ' ').length = 2
  | [], _, _ => by simp
  | l :: rest, hs, h => by
    rw [show parseHeadsLines (l :: rest)
        = (match goStringsSplit l ' ' with
           | [c, r] =>
             match parseHeadsLines rest with
             | .error e => .error e
             | .ok hs => .ok (⟨c, r⟩ :: hs)
           | _ => .error ("invalid line in bundle list-heads output: " ++ l)) from rfl] at h
    intro l2 hl2
    rcases List.mem_cons.mp hl2 with he | ht
    · rw [he]
      rcases hsp : goStringsSplit l ' ' with _ | ⟨c1, _ | ⟨r1, _ | ⟨x, xs⟩⟩⟩ <;>
        rw [hsp] at h
      · cases h
      · cases h
      · rfl
      · cases h
    · rcases hsp : goStringsSplit l ' ' with _ | ⟨c1, _ | ⟨r1, _ | ⟨x, xs⟩⟩⟩ <;>
        rw [hsp] at h
      · cases h
      · cases h
      · cases hrec : parseHeadsLines rest with
        | error e => rw [hrec] at h; cases h
        | ok hs2 => exact parseHeadsLines_ok_shape rest hs2 hrec l2 ht
      · cases h

/-- Complete direction: a listing whose every line has exactly two
space-separated fields parses successfully. -/
theorem parseHeadsLines_shape_ok : ∀ ls : List String,
    (∀ l ∈ ls, (goStringsSplit l ' ').length = 2) → ∃ hs, parseHeadsLines ls = .ok hs
  | [], _ => ⟨[], rfl⟩
  | l :: rest, h => by
    obtain ⟨hs, hrec⟩ := parseHeadsLines_shape_ok rest (fun l2 hl2 => h l2 (by simp [hl2]))
    have hlen := h l (by simp)
    rcases hsp : goStringsSplit l ' ' with _ | ⟨c1, _ | ⟨r1, _ | ⟨x, xs⟩⟩⟩ <;>
      rw [hsp] at hlen <;> simp at hlen
    exact ⟨⟨c1, r1⟩ :: hs, by unfold parseHeadsLines; rw [hsp, hrec]⟩

/-- C6 (amended): the head-listing parser accepts a listing exactly when
every line splits on the single space character into exactly two fields
(tabs or doubled spaces are malformed), each accepted line contributing the
pair (commit ID, ref) positionally; and the orchestrator, fed a listing that
parses to any head count other than one, answers InternalError rather than
picking a head. -/
theorem C6_heads_amended (ls : List String) (line c r : String) (rest : List String)
    (tempDir : String) (repo : RemoteRepo) (opt : BundleOptions) (now : GoTime)
    (env : PullStepEnv) (bs : List Nat) (stdout : String) (heads : List Head)
    (hsplit : goStringsSplit line ' ' = [c, r])
    (hg : (NewGIT tempDir repo).isOk = true)
    (hs : SyncRepoToLocalTemp env.syncEnv = .ready)
    (hb : env.hasLocalBranch = .ok true)
    (hc : env.hasLocalCommits = .ok true)
    (hcb : env.createBundle = .ok bs)
    (hlh : env.listHeadsCmd = .ok stdout)
    (hparse : ParseBundleListHeadsOutput stdout = .ok heads)
    (hn : heads.length ≠ 1) :
    ((∃ hs2, parseHeadsLines ls = .ok hs2) ↔ ∀ l ∈ ls, (goStringsSplit l ' ').length = 2)
  ∧ parseHeadsLines (line :: rest) = Except.map (fun hs2 => ⟨c, r⟩ :: hs2) (parseHeadsLines rest)
  ∧ GitPullHandler.pull tempDir repo opt now env = .internalError "Expected exactly one head" := by
  obtain ⟨g, hNg⟩ : ∃ g, NewGIT tempDir repo = .ok g := by
    cases hNg : NewGIT tempDir repo with
    | ok g => exact ⟨g, rfl⟩
    | error e => rw [hNg] at hg; simp [Except.isOk, Except.toBool] at hg
  refine ⟨⟨fun ⟨hs2, h2⟩ => parseHeadsLines_ok_shape ls hs2 h2, parseHeadsLines_shape_ok ls⟩,
          ?_, ?_⟩
  · cases hrec : parseHeadsLines rest with
    | error e => simp only [parseHeadsLines]; rw [hsplit, hrec]; rfl
    | ok hs2 => simp only [parseHeadsLines]; rw [hsplit, hrec]; rfl
  · unfold GitPullHandler.pull
    simp only [hNg, hs, hb, hc, hcb, hlh]
    unfold GetBundleListHeads
    simp only [hparse]
    match heads, hn with
    | [], _ => rfl
    | [h1], hn => exact absurd rfl hn
    | h1 :: h2 :: t, _ => rfl

/-- Witness for the amended C6 at a concrete malformed listing (two heads). -/
theorem C6_heads_amended_witness :
    ((∃ hs2, parseHeadsLines ["a b"] = .ok hs2) ↔
        ∀ l ∈ ["a b"], (goStringsSplit l ' ').length = 2)
  ∧ parseHeadsLines ("a b" :: []) = Except.map (fun hs2 => ⟨"a", "b"⟩ :: hs2) (parseHeadsLines [])
  ∧ GitPullHandler.pull "tmp" ⟨"u", "b", "tok"⟩ ⟨0, 0⟩ 0
      ⟨⟨.ok true, ⟨.ok, ⟨.ok (), .ok (), .ok (), .ok (), .ok ()⟩, .ok ()⟩, ⟨.ok (), .ok⟩⟩,
       .ok true, .ok true, .ok [7], .ok "c1 r1\nc2 r2"⟩
      = .internalError "Expected exactly one head" :=
  C6_heads_amended ["a b"] "a b" "a" "b" []
    "tmp" ⟨"u", "b", "tok"⟩ ⟨0, 0⟩ 0
    ⟨⟨.ok true, ⟨.ok, ⟨.ok (), .ok (), .ok (), .ok (), .ok ()⟩, .ok ()⟩, ⟨.ok (), .ok⟩⟩,
     .ok true, .ok true, .ok [7], .ok "c1 r1\nc2 r2"⟩
    [7] "c1 r1\nc2 r2" [⟨"c1", "r1"⟩, ⟨"c2", "r2"⟩]
    (by decide) (by decide) rfl rfl rfl rfl rfl (by rfl) (by decide)

/-- C6, counterexample to the claim as stated: a line holding exactly two
whitespace-separated fields — separated by a tab — is rejected by the
parser, because the code splits on the space character only. -/
theorem C6_heads_counterexample :
    (goStringsSplit "abc\tdef" '\t').length = 2
  ∧ ParseBundleListHeadsOutput "abc\tdef"
      = .error "invalid line in bundle list-heads output: abc\tdef" := by
  constructor
  · decide
  · rfl

/-! ## Claim C8 -/

/-- C8: when bundle creation fails and the request carried a time filter,
a diagnostic containing the empty-bundle refusal marker produces
NoContent("no new commits since <cutoff>") — never InternalError — while an
unfiltered request maps every bundle-creation failure, marker or not, to
InternalError. -/
theorem C8_empty_bundle (tempDir : String) (repo : RemoteRepo) (opt1 opt2 : BundleOptions)
    (now : GoTime) (env1 env2 : PullStepEnv) (ce1 ce2 : CommandError)
    (hg : (NewGIT tempDir repo).isOk = true)
    (h1s : SyncRepoToLocalTemp env1.syncEnv = .ready)
    (h1b : env1.hasLocalBranch = .ok true)
    (h1c : env1.hasLocalCommits = .ok true)
    (h1cb : env1.createBundle = .error ce1)
    (h1f : opt1.HasAny = true)
    (h1m : goStringsContains ce1.stdErr emptyBundleMarker = true)
    (h2s : SyncRepoToLocalTemp env2.syncEnv = .ready)
    (h2b : env2.hasLocalBranch = .ok true)
    (h2c : env2.hasLocalCommits = .ok true)
    (h2cb : env2.createBundle = .error ce2)
    (h2f : opt2.HasAny = false) :
    GitPullHandler.pull tempDir repo opt1 now env1
      = .noContent ("no new commits since " ++ goTimeString (now - opt1.since))
  ∧ GitPullHandler.pull tempDir repo opt2 now env2
      = .internalError ("Failed to create bundle: " ++ ce2.message) := by
  obtain ⟨g, hNg⟩ : ∃ g, NewGIT tempDir repo = .ok g := by
    cases hNg : NewGIT tempDir repo with
    | ok g => exact ⟨g, rfl⟩
    | error e => rw [hNg] at hg; simp [Except.isOk, Except.toBool] at hg
  constructor
  · unfold GitPullHandler.pull
    simp [hNg, h1s, h1b, h1c, h1cb, h1f, h1m]
  · unfold GitPullHandler.pull
    simp [hNg, h2s, h2b, h2c, h2cb, h2f]

/-- Witness for C8: a since-filtered request refused as empty versus an
unfiltered request with the same diagnostic. -/
theorem C8_empty_bundle_witness :
    GitPullHandler.pull "tmp" ⟨"u", "b", "tok"⟩ ⟨3600000000000, 0⟩ 7200000000000
      ⟨⟨.ok true, ⟨.ok, ⟨.ok (), .ok (), .ok (), .ok (), .ok ()⟩, .ok ()⟩, ⟨.ok (), .ok⟩⟩,
       .ok true, .ok true,
       .error ⟨"exit status 128", "failed to bundle", 128,
              "fatal: Refusing to create empty bundle."⟩, .ok ""⟩
      = .noContent ("no new commits since " ++ goTimeString (7200000000000 - 3600000000000))
  ∧ GitPullHandler.pull "tmp" ⟨"u", "b", "tok"⟩ ⟨0, 0⟩ 7200000000000
      ⟨⟨.ok true, ⟨.ok, ⟨.ok (), .ok (), .ok (), .ok (), .ok ()⟩, .ok ()⟩, ⟨.ok (), .ok⟩⟩,
       .ok true, .ok true,
       .error ⟨"exit status 128", "failed to bundle", 128,
              "fatal: Refusing to create empty bundle."⟩, .ok ""⟩
      = .internalError ("Failed to create bundle: " ++ "failed to bundle") :=
  C8_empty_bundle "tmp" ⟨"u", "b", "tok"⟩ ⟨3600000000000, 0⟩ ⟨0, 0⟩ 7200000000000
    ⟨⟨.ok true, ⟨.ok, ⟨.ok (), .ok (), .ok (), .ok (), .ok ()⟩, .ok ()⟩, ⟨.ok (), .ok⟩⟩,
     .ok true, .ok true,
     .error ⟨"exit status 128", "failed to bundle", 128,
            "fatal: Refusing to create empty bundle."⟩, .ok ""⟩
    ⟨⟨.ok true, ⟨.ok, ⟨.ok (), .ok (), .ok (), .ok (), .ok ()⟩, .ok ()⟩, ⟨.ok (), .ok⟩⟩,
     .ok true, .ok true,
     .error ⟨"exit status 128", "failed to bundle", 128,
            "fatal: Refusing to create empty bundle."⟩, .ok ""⟩
    ⟨"exit status 128", "failed to bundle", 128, "fatal: Refusing to create empty bundle."⟩
    ⟨"exit status 128", "failed to bundle", 128, "fatal: Refusing to create empty bundle."⟩
    (by decide) rfl rfl rfl rfl (by decide) (by decide) rfl rfl rfl rfl (by decide)

/-! ## Claim C7 -/

/-- Two prefix tests against the same string cannot both succeed when
neither candidate prefix is a prefix of the other. -/
theorem goHasPrefix_excl (s p1 p2 : String)
    (hp : p1.toList.isPrefixOf p2.toList = false)
    (hq : p2.toList.isPrefixOf p1.toList = false)
    (h1 : goHasPrefix s p1 = true) : goHasPrefix s p2 = false := by
  unfold goHasPrefix at h1 ⊢
  cases h2 : p2.toList.isPrefixOf s.toList
  · rfl
  · exfalso
    have hpre1 : p1.toList <+: s.toList := List.isPrefixOf_iff_prefix.mp h1
    have hpre2 : p2.toList <+: s.toList := List.isPrefixOf_iff_prefix.mp h2
    rcases List.prefix_or_prefix_of_prefix hpre1 hpre2 with hc | hc
    · rw [← List.isPrefixOf_iff_prefix] at hc; rw [hc] at hp; cases hp
    · rw [← List.isPrefixOf_iff_prefix] at hc; rw [hc] at hq; cases hq

/-- C7: one scanner step of the verify-report parser for each kind of line.
A contains-declaration line captures the contained ref from the next
scanned line (whatever follows the marker on the declaration line itself is
ignored); symmetrically for a requires-declaration line; the
complete-history line sets the completeness flag; a hash-algorithm line
stores the text after the marker; and a line ending in " is okay" (matching
no marker) flags the bundle as well-formed. -/
theorem C7_verify_steps (lineC lineR lineH lineO refC refR : String)
    (restC restR restH restO restK : List String) (b : BundleInfo)
    (hC : goHasPrefix lineC containsMarker = true)
    (hR : goHasPrefix lineR requiresMarker = true)
    (hH : goHasPrefix lineH hashAlgoMarker = true)
    (hHo : goHasSuffix lineH " is okay" = false)
    (hO1 : goHasSuffix lineO " is okay" = true)
    (hO2 : goHasPrefix lineO containsMarker = false)
    (hO3 : goHasPrefix lineO requiresMarker = false)
    (hO4 : goHasPrefix lineO hashAlgoMarker = false)
    (hO5 : goHasPrefix lineO completeHistoryLine = false) :
    parseVerifyLines (lineC :: refC :: restC) b
      = parseVerifyLines restC { b with containsRef := refC }
  ∧ parseVerifyLines (lineR :: refR :: restR) b
      = parseVerifyLines restR { b with requiresRef := refR }
  ∧ parseVerifyLines (completeHistoryLine :: restK) b
      = parseVerifyLines restK { b with isComplete := true }
  ∧ parseVerifyLines (lineH :: restH) b
      = parseVerifyLines restH { b with hashAlgorithm := goDropChars lineH hashAlgoMarker.length }
  ∧ parseVerifyLines (lineO :: restO) b = parseVerifyLines restO { b with isOkay := true } := by
  refine ⟨?_, ?_, ?_, ?_, ?_⟩
  · have hne : lineC ≠ completeHistoryLine := fun he => by
      rw [he] at hC; exact absurd hC (by decide)
    have hh : goHasPrefix lineC hashAlgoMarker = false :=
      goHasPrefix_excl lineC containsMarker hashAlgoMarker (by decide) (by decide) hC
    simp [parseVerifyLines, hC, hh, hne]
  · have hne : lineR ≠ completeHistoryLine := fun he => by
      rw [he] at hR; exact absurd hR (by decide)
    have hh : goHasPrefix lineR hashAlgoMarker = false :=
      goHasPrefix_excl lineR requiresMarker hashAlgoMarker (by decide) (by decide) hR
    have hcon : goHasPrefix lineR containsMarker = false :=
      goHasPrefix_excl lineR requiresMarker containsMarker (by decide) (by decide) hR
    simp [parseVerifyLines, hR, hh, hcon, hne]
  · have e2 : goHasPrefix completeHistoryLine hashAlgoMarker = false := by decide
    have e3 : goHasPrefix completeHistoryLine containsMarker = false := by decide
    have e4 : goHasPrefix completeHistoryLine requiresMarker = false := by decide
    have e5 : goHasPrefix completeHistoryLine completeHistoryLine = true := by decide
    cases restK <;> simp [parseVerifyLines, e2, e3, e4, e5]
  · have hne : lineH ≠ completeHistoryLine := fun he => by
      rw [he] at hH; exact absurd hH (by decide)
    have hcon : goHasPrefix lineH containsMarker = false :=
      goHasPrefix_excl lineH hashAlgoMarker containsMarker (by decide) (by decide) hH
    have hreq : goHasPrefix lineH requiresMarker = false :=
      goHasPrefix_excl lineH hashAlgoMarker requiresMarker (by decide) (by decide) hH
    have hcom : goHasPrefix lineH completeHistoryLine = false :=
      goHasPrefix_excl lineH hashAlgoMarker completeHistoryLine (by decide) (by decide) hH
    cases restH <;> simp [parseVerifyLines, hH, hcon, hreq, hcom, hne, hHo]
  · have hne : lineO ≠ completeHistoryLine := fun he => by
      rw [he] at hO5; exact absurd hO5 (by decide)
    cases restO <;> simp [parseVerifyLines, hO1, hO2, hO3, hO4, hO5, hne]

/-- Witness for C7 at concrete report lines. -/
theorem C7_verify_steps_witness :
    parseVerifyLines ("The bundle contains this ref:" :: "refs/heads/main" :: []) ⟨false, "", "", "", false⟩
      = parseVerifyLines [] { (⟨false, "", "", "", false⟩ : BundleInfo) with containsRef := "refs/heads/main" }
  ∧ parseVerifyLines ("The bundle requires this ref:" :: "refs/heads/base" :: []) ⟨false, "", "", "", false⟩
      = parseVerifyLines [] { (⟨false, "", "", "", false⟩ : BundleInfo) with requiresRef := "refs/heads/base" }
  ∧ parseVerifyLines (completeHistoryLine :: []) ⟨false, "", "", "", false⟩
      = parseVerifyLines [] { (⟨false, "", "", "", false⟩ : BundleInfo) with isComplete := true }
  ∧ parseVerifyLines ("The bundle uses this hash algorithm: sha1" :: []) ⟨false, "", "", "", false⟩
      = parseVerifyLines [] { (⟨false, "", "", "", false⟩ : BundleInfo) with
          hashAlgorithm := goDropChars "The bundle uses this hash algorithm: sha1" hashAlgoMarker.length }
  ∧ parseVerifyLines ("bundle.file is okay" :: []) ⟨false, "", "", "", false⟩
      = parseVerifyLines [] { (⟨false, "", "", "", false⟩ : BundleInfo) with isOkay := true } :=
  C7_verify_steps "The bundle contains this ref:" "The bundle requires this ref:"
    "The bundle uses this hash algorithm: sha1" "bundle.file is okay"
    "refs/heads/main" "refs/heads/base" [] [] [] [] [] ⟨false, "", "", "", false⟩
    (by decide) (by decide) (by decide) (by decide) (by decide)
    (by decide) (by decide) (by decide) (by decide)

/-! ## Claim C1 -/

/-- C1 (amended): the idempotency hash is a function of the head commit ID
and the bundle options alone (the head's ref does not enter the preimage),
so pulls with equal head commit and equal filter options agree; and a
successful pull's payload carries exactly `createHash` of its head commit
and the request's options. Across different filter windows the hash differs
— see the counterexample. -/
theorem C1_hash_amended (c r1 r2 : String) (opt : BundleOptions)
    (tempDir : String) (repo : RemoteRepo) (now : GoTime) (env : PullStepEnv) (p : PullPayload)
    (hp : GitPullHandler.pull tempDir repo opt now env = .success p) :
    createHash ⟨c, r1⟩ opt = createHash ⟨c, r2⟩ opt
  ∧ p.idempotencyHash = createHash ⟨p.headCommit, ""⟩ opt := by
  constructor
  · rfl
  · unfold GitPullHandler.pull at hp
    repeat' split at hp
    any_goals exact HttpOutcome.noConfusion hp
    injection hp with h
    subst h
    rfl

set_option maxHeartbeats 4000000 in
/-- Witness for the amended C1 at a concrete successful pull. -/
theorem C1_hash_amended_witness :
    createHash ⟨"abc", "refs/heads/main"⟩ ⟨0, 0⟩ = createHash ⟨"abc", "dev"⟩ ⟨0, 0⟩
  ∧ (PullPayload.mk "abc" false (createHash ⟨"abc", "refs/heads/main"⟩ ⟨0, 0⟩) [7]).idempotencyHash
      = createHash ⟨(PullPayload.mk "abc" false
          (createHash ⟨"abc", "refs/heads/main"⟩ ⟨0, 0⟩) [7]).headCommit, ""⟩ ⟨0, 0⟩ :=
  C1_hash_amended "abc" "refs/heads/main" "dev" ⟨0, 0⟩ "tmp" ⟨"u", "b", "tok"⟩ 0
    ⟨⟨.ok true, ⟨.ok, ⟨.ok (), .ok (), .ok (), .ok (), .ok ()⟩, .ok ()⟩, ⟨.ok (), .ok⟩⟩,
     .ok true, .ok true, .ok [7], .ok "abc refs/heads/main"⟩
    (PullPayload.mk "abc" false (createHash ⟨"abc", "refs/heads/main"⟩ ⟨0, 0⟩) [7])
    (by decide)

set_option maxHeartbeats 4000000 in
set_option maxRecDepth 8000 in
/-- C1, counterexample to the claim as stated: with the same unchanged head
commit, an unfiltered pull and a pull filtered by a one-hour window compute
different idempotency hashes, because `createHash` feeds the formatted
`Since`/`After` filter values into the SHA-256 preimage. -/
theorem C1_hash_counterexample :
    createHash ⟨"0123456789abcdef0123456789abcdef01234567", "refs/heads/main"⟩ ⟨0, 0⟩
  ≠ createHash ⟨"0123456789abcdef0123456789abcdef01234567", "refs/heads/main"⟩
      ⟨3600000000000, 0⟩ := by
  decide

end GitSync
